import Mathlib

/-!
Shallow embedding of the scraping coordination layer of the
around-the-grounds repository, together with theorems settling the
specification claims about it.

Embedded source files:
* src/around_the_grounds/scrapers/coordinator.py
  (ScrapingError, ScraperCoordinator: scrape_all, scrape_one,
   _scrape_brewery, _filter_and_sort_events, get_errors, has_errors)
* src/around_the_grounds/parsers/registry.py (ParserRegistry.get_parser)
* src/around_the_grounds/models/schedule.py (FoodTruckEvent)
* src/around_the_grounds/events_main.py (the error-summary block of
  format_events_output, lines 100-115)

Modelling conventions:
* Python datetime values are embedded at minute resolution as a pair
  (day, minute-of-day); Python compares datetimes chronologically, which
  is the lexicographic order on that pair.
* Python exceptions are explicit values (PyExn); a function that can
  raise returns Except PyExn.
* A parser is modelled by its observable behaviour: the outcome of its
  parse coroutine on each attempt index (events returned, or the
  exception raised).  The registry dict is modelled as a lookup function
  from keys to parsers.
* The wall clock read by datetime.now is passed in as an explicit
  argument (utcMinutes); asyncio.sleep is recorded in the trace rather
  than performed.
-/

/-- Embedding of a Python `datetime`: `day` counts civil days since
1970-01-01 (possibly negative), `minute` is the time of day in minutes.
`date()` corresponds to the `day` projection. -/
@[ext]
structure PyDateTime where
  day : Int
  minute : Nat
deriving DecidableEq

/-- Python `<=` on datetimes (chronological = lexicographic order). -/
def PyDateTime.leb (a b : PyDateTime) : Bool :=
  decide (a.day < b.day) || (decide (a.day = b.day) && decide (a.minute ≤ b.minute))

/-- Python `<` on datetimes (chronological = lexicographic order). -/
def PyDateTime.ltb (a b : PyDateTime) : Bool :=
  decide (a.day < b.day) || (decide (a.day = b.day) && decide (a.minute < b.minute))

/-- Python `t + timedelta(days=n)`: the day advances by `n`, the time of
day is unchanged. -/
def PyDateTime.plusDays (t : PyDateTime) (n : Nat) : PyDateTime :=
  { day := t.day + n, minute := t.minute }

/-- Civil days since 1970-01-01 of the proleptic Gregorian date y-m-d
(the standard days-from-civil computation).  Used only to write concrete
calendar dates inside theorem statements. -/
def daysFromCivil (y m d : Int) : Int :=
  let yAdj := if m ≤ 2 then y - 1 else y
  let era := yAdj.fdiv 400
  let yoe := yAdj - era * 400
  let mp := (m + 9).emod 12
  let doy := (153 * mp + 2).fdiv 5 + d - 1
  let doe := yoe * 365 + yoe.fdiv 4 - yoe.fdiv 100 + doy
  era * 146097 + doe - 719468

/-- Midnight (00:00) of the Gregorian date y-m-d, as parsers construct
event dates (e.g. littlefield.py line 162: datetime(dt.year, dt.month,
dt.day)). -/
def mkDate (y m d : Int) : PyDateTime :=
  { day := daysFromCivil y m d, minute := 0 }

/-- A datetime on the Gregorian date y-m-d at time hh:mm. -/
def mkTime (y m d : Int) (hh mm : Nat) : PyDateTime :=
  { day := daysFromCivil y m d, minute := hh * 60 + mm }

/-- Modelled from the spec: src/around_the_grounds/models/brewery.py is
not among the provided sources.  Spec section 3 (Source) gives the
fields key, name, url, parserConfig; the coordinator reads only `key`
and `name`, and `parser_config` is opaque to it, so it is omitted
here. -/
structure Brewery where
  key : String
  name : String
  url : String
deriving DecidableEq

/-- models/schedule.py lines 6-15 (dataclass FoodTruckEvent). -/
structure FoodTruckEvent where
  brewery_key : String
  brewery_name : String
  food_truck_name : String
  date : PyDateTime
  start_time : Option PyDateTime := none
  end_time : Option PyDateTime := none
  description : Option String := none
  ai_generated_name : Bool := false
deriving DecidableEq

/-- coordinator.py lines 12-26 (class ScrapingError).  The wall-clock
`timestamp` field (datetime.now() at construction, line 26) is not
modelled; no claim concerns it. -/
structure ScrapingError where
  brewery : Brewery
  error_type : String
  message : String
  details : Option String := none
deriving DecidableEq

/-- coordinator.py lines 31-33. -/
def ScrapingError.to_user_message (e : ScrapingError) : String :=
  "Failed to fetch information for brewery: " ++ e.brewery.name

/-- Python exception values relevant to the coordinator, by the handler
that would catch them in coordinator.py lines 114-196. -/
inductive PyExn where
  | keyError (msg : String)
  | valueError (msg : String)
  | timeoutError
  | clientError (msg : String)
  | otherError (msg : String)
deriving DecidableEq

/-- Python str(e) rendering of an exception, used when an exception is
interpolated into an error message.  The exact text is the exception's
payload. -/
def PyExn.str : PyExn → String
  | .keyError msg => msg
  | .valueError msg => msg
  | .timeoutError => ""
  | .clientError msg => msg
  | .otherError msg => msg

/-- Outcome of one invocation of `parser.parse(session)`
(coordinator.py line 129): the returned event list, or the exception
raised, classified by the handler that catches it (lines 133-196). -/
inductive ParseResult where
  | ok (events : List FoodTruckEvent)
  | raiseTimeout
  | raiseClientError (msg : String)
  | raiseValueError (msg : String)
  | raiseOther (msg : String)
deriving DecidableEq

/-- A parser (already paired with its class): given the brewery it was
constructed with and an attempt index, the outcome of that parse
attempt. -/
abbrev ParserSpec := Brewery → Nat → ParseResult

/-- The registry dict (registry.py lines 17-28) modelled as a lookup
function from keys to parsers. -/
abbrev Registry := String → Option ParserSpec

/-- registry.py lines 30-34 (ParserRegistry.get_parser): raises
ValueError when the key is unknown. -/
def ParserRegistry.getParser (reg : Registry) (key : String) : Except PyExn ParserSpec :=
  match reg key with
  | none => .error (.valueError ("No parser found for key: " ++ key))
  | some p => .ok p

/-- Observable trace of `_scrape_brewery` on one brewery: the returned
value or escaping exception, the number of parse attempts made, and the
seconds of each backoff sleep, in order. -/
structure ScrapeTrace where
  result : Except PyExn (List FoodTruckEvent × Option ScrapingError)
  attempts : Nat
  sleeps : List Nat

/-- coordinator.py lines 124-198: the retry loop
`for attempt in range(max_retries)`.  `fuel` is the number of loop
iterations remaining (`maxRetries - attempt`); when it reaches 0 the
loop falls through to line 198 and returns `([], None)`. -/
def scrapeLoop (parse : Nat → ParseResult) (b : Brewery)
    (maxRetries timeoutTotal : Nat) : Nat → Nat → ScrapeTrace
  | _, 0 => { result := .ok ([], none), attempts := 0, sleeps := [] }
  | attempt, fuel + 1 =>
    match parse attempt with
    | .ok events =>
      { result := .ok (events, none), attempts := 1, sleeps := [] }
    | .raiseTimeout =>
      -- lines 133-148
      if attempt == maxRetries - 1 then
        { result := .ok ([], some
            { brewery := b
              error_type := "Network Timeout"
              message := "Connection timeout after " ++ (toString timeoutTotal) ++ "s"
              details := some ("Failed after " ++ (toString maxRetries) ++ " attempts") })
          attempts := 1, sleeps := [] }
      else
        let rest := scrapeLoop parse b maxRetries timeoutTotal (attempt + 1) fuel
        { result := rest.result, attempts := rest.attempts + 1,
          sleeps := 2 ^ attempt :: rest.sleeps }
    | .raiseClientError msg =>
      -- lines 150-167
      if attempt == maxRetries - 1 then
        { result := .ok ([], some
            { brewery := b
              error_type := "Network Error"
              message := "Network error: " ++ msg
              details := some ("Failed after " ++ (toString maxRetries) ++ " attempts") })
          attempts := 1, sleeps := [] }
      else
        let rest := scrapeLoop parse b maxRetries timeoutTotal (attempt + 1) fuel
        { result := rest.result, attempts := rest.attempts + 1,
          sleeps := 2 ^ attempt :: rest.sleeps }
    | .raiseValueError msg =>
      -- lines 169-177: terminal immediately, no retry
      { result := .ok ([], some
          { brewery := b
            error_type := "Parser Error"
            message := "Parsing failed: " ++ msg
            details := some msg })
        attempts := 1, sleeps := [] }
    | .raiseOther msg =>
      -- lines 179-196
      if attempt == maxRetries - 1 then
        { result := .ok ([], some
            { brewery := b
              error_type := "Unexpected Error"
              message := "Unexpected error: " ++ msg
              details := some msg })
          attempts := 1, sleeps := [] }
      else
        let rest := scrapeLoop parse b maxRetries timeoutTotal (attempt + 1) fuel
        { result := rest.result, attempts := rest.attempts + 1,
          sleeps := 2 ^ attempt :: rest.sleeps }

/-- coordinator.py lines 107-198 (_scrape_brewery).  NOTE (faithful to
the source): get_parser raises ValueError on an unknown key
(registry.py line 33), but the handler on lines 114-122 catches only
KeyError, so that ValueError propagates out of _scrape_brewery; the
Configuration Error branch is unreachable. -/
def scrapeBrewery (reg : Registry) (maxRetries timeoutTotal : Nat) (b : Brewery) :
    ScrapeTrace :=
  match ParserRegistry.getParser reg b.key with
  | .error e =>
    match e with
    | .keyError msg =>
      -- lines 114-122: dead code in the source, kept for fidelity
      { result := .ok ([], some
          { brewery := b
            error_type := "Configuration Error"
            message := "Parser not found for brewery key: " ++ b.key
            details := some msg })
        attempts := 0, sleeps := [] }
    | e => { result := .error e, attempts := 0, sleeps := [] }
  | .ok p => scrapeLoop (p b) b maxRetries timeoutTotal 0 maxRetries

/-- coordinator.py lines 36-44: the coordinator's constructor arguments
and its run-scoped error list.  `timeout` is the total seconds wrapped
into aiohttp.ClientTimeout on line 41. -/
structure ScraperCoordinator where
  max_concurrent : Nat := 5
  timeout : Nat := 60
  max_retries : Nat := 3
  errors : List ScrapingError := []
deriving DecidableEq

/-- Fixed Seattle offset, in minutes relative to UTC: coordinator.py
lines 208-210 use timezone(timedelta(hours=-8)) — a constant offset,
not the process's local zone. -/
def seattleOffsetMinutes : Int := -8 * 60

/-- Python datetime.now(tz) for a fixed-offset tz: the current UTC
instant (minutes since the epoch) shifted by the offset and split into
civil day and minute of day. -/
def nowInFixedZone (utcMinutes offsetMinutes : Int) : PyDateTime :=
  { day := (utcMinutes + offsetMinutes).fdiv 1440
    minute := ((utcMinutes + offsetMinutes).emod 1440).toNat }

/-- coordinator.py lines 215-219: the 7-day window test
`now.date() <= event.date.date() <= one_week_later.date()`. -/
def inWindow (now : PyDateTime) (e : FoodTruckEvent) : Bool :=
  decide (now.day ≤ e.date.day) && decide (e.date.day ≤ (now.plusDays 7).day)

/-- coordinator.py line 222: the sort key
`lambda x: (x.date, x.start_time or x.date)`. -/
def eventKey (e : FoodTruckEvent) : PyDateTime × PyDateTime :=
  (e.date, e.start_time.getD e.date)

/-- Python `<=` on pairs of datetimes (tuple comparison is
lexicographic). -/
def dtPairLeb (a b : PyDateTime × PyDateTime) : Bool :=
  PyDateTime.ltb a.1 b.1 || (decide (a.1 = b.1) && PyDateTime.leb a.2 b.2)

/-- The comparison underlying `filtered_events.sort(key=...)` on
coordinator.py line 222. -/
def eventLeb (a b : FoodTruckEvent) : Bool :=
  dtPairLeb (eventKey a) (eventKey b)

/-- Propositional form of `eventLeb`, for use with List.insertionSort. -/
abbrev eventLe (a b : FoodTruckEvent) : Prop := eventLeb a b = true

/-- coordinator.py lines 200-224 (_filter_and_sort_events).
`utcMinutes` is the UTC wall clock read by datetime.now on line 211.
Python's list.sort is a stable ascending sort; stable sorts of a list
under a total transitive comparison are extensionally unique, and
List.insertionSort is such a stable sort, so it is the embedding of
line 222. -/
def ScraperCoordinator.filter_and_sort_events (utcMinutes : Int)
    (events : List FoodTruckEvent) : List FoodTruckEvent :=
  let now := nowInFixedZone utcMinutes seattleOffsetMinutes
  List.insertionSort eventLe (events.filter (inWindow now))

/-- coordinator.py lines 66-86: the aggregation pass over
`asyncio.gather(*tasks, return_exceptions=True)`, which yields one
result per brewery in task-creation order; an exception value becomes
an Unexpected Error ScrapingError (lines 69-81), otherwise the
per-brewery error (if any) is collected and the events concatenated
(lines 83-86). -/
def aggregateResults :
    List (Brewery × Except PyExn (List FoodTruckEvent × Option ScrapingError)) →
    List FoodTruckEvent × List ScrapingError
  | [] => ([], [])
  | (b, r) :: rest =>
    let acc := aggregateResults rest
    match r with
    | .error exn =>
      (acc.1,
        { brewery := b
          error_type := "Unexpected Error"
          message := "Unexpected error: " ++ exn.str
          details := some exn.str } :: acc.2)
    | .ok (events, some err) => (events ++ acc.1, err :: acc.2)
    | .ok (events, none) => (events ++ acc.1, acc.2)

/-- coordinator.py lines 46-89 (scrape_all).  Line 51 resets
self.errors before the run, so the returned coordinator's error list is
exactly this run's errors. -/
def ScraperCoordinator.scrape_all (c : ScraperCoordinator) (reg : Registry)
    (utcMinutes : Int) (breweries : List Brewery) :
    List FoodTruckEvent × ScraperCoordinator :=
  let results := breweries.map
    (fun b => (b, (scrapeBrewery reg c.max_retries c.timeout b).result))
  let agg := aggregateResults results
  (ScraperCoordinator.filter_and_sort_events utcMinutes agg.1,
    { c with errors := agg.2 })

/-- coordinator.py lines 91-105 (scrape_one).  There is no handler
around the _scrape_brewery call, so an exception escaping it (the
unknown-key ValueError) propagates to the caller and self.errors is
left untouched (modelled by returning `.error`). -/
def ScraperCoordinator.scrape_one (c : ScraperCoordinator) (reg : Registry)
    (utcMinutes : Int) (b : Brewery) :
    Except PyExn ((List FoodTruckEvent × Option ScrapingError) × ScraperCoordinator) :=
  match (scrapeBrewery reg c.max_retries c.timeout b).result with
  | .error e => .error e
  | .ok (events, err) =>
    .ok ((ScraperCoordinator.filter_and_sort_events utcMinutes events, err),
      { c with errors := match err with | some e => [e] | none => [] })

/-- coordinator.py lines 226-230. -/
def ScraperCoordinator.get_errors (c : ScraperCoordinator) : List ScrapingError :=
  c.errors

/-- coordinator.py lines 232-236. -/
def ScraperCoordinator.has_errors (c : ScraperCoordinator) : Bool :=
  decide (0 < c.errors.length)

/-- events_main.py line 103: `list(dict.fromkeys(user_messages))` keeps
the first occurrence of each message, in order; `seen` is the set of
keys already in the dict. -/
def dedupAux (seen : List String) : List String → List String
  | [] => []
  | x :: xs => if x ∈ seen then dedupAux seen xs else x :: dedupAux (x :: seen) xs

/-- events_main.py line 103 with an initially empty dict. -/
def dedupKeepFirst (l : List String) : List String :=
  dedupAux [] l

/-- events_main.py lines 100-115: the error block of
format_events_output — one bullet line per deduplicated user
message. -/
def errorSummaryLines (errors : List ScrapingError) : List String :=
  (dedupKeepFirst (errors.map ScrapingError.to_user_message)).map
    (fun m => "  • " ++ m)

/-! Concrete scenario constants used by witnesses and counterexamples. -/

/-- A brewery whose key is registered in the scenario registries. -/
def wBrewery : Brewery :=
  { key := "stoup-ballard", name := "Stoup Brewing", url := "https://example.test/stoup" }

/-- A second registered brewery. -/
def wBreweryB : Brewery :=
  { key := "obec-brewing", name := "Obec Brewing", url := "https://example.test/obec" }

/-- A brewery whose parser always fails in the mixed scenario. -/
def wFailBrewery : Brewery :=
  { key := "wheelie-pop", name := "Wheelie Pop", url := "https://example.test/wheelie" }

/-- A brewery whose key is not registered anywhere. -/
def wBadBrewery : Brewery :=
  { key := "no-such-key", name := "Ghost Brewery", url := "https://example.test/ghost" }

/-- Two failed breweries rendering the identical user message. -/
def wBrewSameA : Brewery :=
  { key := "roulette", name := "Same Name", url := "https://example.test/a" }

/-- Second brewery with the same display name as wBrewSameA. -/
def wBrewSameB : Brewery :=
  { key := "littlefield", name := "Same Name", url := "https://example.test/b" }

/-- An event two days after the reference now of 2025-11-02. -/
def wEventNov4 : FoodTruckEvent :=
  { brewery_key := "stoup-ballard", brewery_name := "Stoup Brewing",
    food_truck_name := "Truck A", date := mkDate 2025 11 4 }

/-- An event exactly seven days after the reference now (boundary). -/
def wEventNov9 : FoodTruckEvent :=
  { brewery_key := "obec-brewing", brewery_name := "Obec Brewing",
    food_truck_name := "Truck B", date := mkDate 2025 11 9 }

/-- An event eight days after the reference now (outside the window). -/
def wEventNov10 : FoodTruckEvent :=
  { brewery_key := "stoup-ballard", brewery_name := "Stoup Brewing",
    food_truck_name := "Truck C", date := mkDate 2025 11 10 }

/-- An event on 2025-11-04 with no start time. -/
def wTimelessNov4 : FoodTruckEvent :=
  { brewery_key := "stoup-ballard", brewery_name := "Stoup Brewing",
    food_truck_name := "Timeless", date := mkDate 2025 11 4 }

/-- An event on 2025-11-04 starting at 09:00. -/
def wTimed9Nov4 : FoodTruckEvent :=
  { brewery_key := "stoup-ballard", brewery_name := "Stoup Brewing",
    food_truck_name := "Nine", date := mkDate 2025 11 4,
    start_time := some (mkTime 2025 11 4 9 0) }

/-- An event on 2025-11-04 whose start time is exactly midnight, i.e.
equal to its date value. -/
def wMidnightNov4 : FoodTruckEvent :=
  { brewery_key := "stoup-ballard", brewery_name := "Stoup Brewing",
    food_truck_name := "Midnight", date := mkDate 2025 11 4,
    start_time := some (mkDate 2025 11 4) }

/-- A UTC instant at which the Seattle (UTC-8) wall clock reads
2025-11-02 10:00. -/
def wUtcNov2 : Int := daysFromCivil 2025 11 2 * 1440 + 1080

/-- The empty registry: every key is unknown. -/
def wRegEmpty : Registry := fun _ => none

/-- Registry in which wBrewery's parser times out on every attempt. -/
def wRegTimeout : Registry := fun k =>
  if k = "stoup-ballard" then some (fun _ _ => .raiseTimeout) else none

/-- Registry in which wBrewery's parser raises ValueError on every
attempt. -/
def wRegValueError : Registry := fun k =>
  if k = "stoup-ballard" then some (fun _ _ => .raiseValueError "bad page") else none

/-- Registry in which wBrewery's parser succeeds on the first
attempt. -/
def wRegSuccess : Registry := fun k =>
  if k = "stoup-ballard" then some (fun _ _ => .ok [wEventNov4]) else none

/-- Registry for the isolation scenario: two succeeding sources and one
that always times out. -/
def wRegMixed : Registry := fun k =>
  if k = "stoup-ballard" then some (fun _ _ => .ok [wEventNov4])
  else if k = "obec-brewing" then some (fun _ _ => .ok [wEventNov9])
  else if k = "wheelie-pop" then some (fun _ _ => .raiseTimeout)
  else none

/-- Registry in which both same-name breweries' parsers always time
out. -/
def wRegFailTwo : Registry := fun k =>
  if k = "roulette" then some (fun _ _ => .raiseTimeout)
  else if k = "littlefield" then some (fun _ _ => .raiseTimeout)
  else if k = "wheelie-pop" then some (fun _ _ => .raiseTimeout)
  else none

/-- The per-scenario event list of each succeeding source in the mixed
registry. -/
def wEvOf : Brewery → List FoodTruckEvent := fun b =>
  if b.key = "stoup-ballard" then [wEventNov4] else [wEventNov9]

/-! Order-theoretic facts about the sort comparison. -/

instance : IsTotal FoodTruckEvent eventLe :=
  ⟨by
    intro a b
    simp only [eventLe, eventLeb, dtPairLeb, eventKey, PyDateTime.ltb, PyDateTime.leb,
      Bool.or_eq_true, Bool.and_eq_true, decide_eq_true_eq, PyDateTime.ext_iff]
    omega⟩

instance : IsTrans FoodTruckEvent eventLe :=
  ⟨by
    intro a b c hab hbc
    simp only [eventLe, eventLeb, dtPairLeb, eventKey, PyDateTime.ltb, PyDateTime.leb,
      Bool.or_eq_true, Bool.and_eq_true, decide_eq_true_eq, PyDateTime.ext_iff] at hab hbc ⊢
    omega⟩

/-- A successful first attempt ends the retry loop at once with the
events and no error. -/
theorem scrapeLoop_ok_first (parse : Nat → ParseResult) (b : Brewery)
    (mr t : Nat) (evs : List FoodTruckEvent) (h : parse 0 = .ok evs)
    (fuel : Nat) (hf : 1 ≤ fuel) :
    scrapeLoop parse b mr t 0 fuel =
      { result := .ok (evs, none), attempts := 1, sleeps := [] } := by
  cases fuel with
  | zero => omega
  | succ f => simp [scrapeLoop, h]

/-- A first-attempt ValueError ends the retry loop at once with a
Parser Error and exactly one attempt. -/
theorem scrapeLoop_valueError_first (parse : Nat → ParseResult) (b : Brewery)
    (mr t : Nat) (msg : String) (h : parse 0 = .raiseValueError msg)
    (fuel : Nat) (hf : 1 ≤ fuel) :
    scrapeLoop parse b mr t 0 fuel =
      { result := .ok ([], some
          { brewery := b, error_type := "Parser Error",
            message := "Parsing failed: " ++ msg, details := some msg }),
        attempts := 1, sleeps := [] } := by
  cases fuel with
  | zero => omega
  | succ f => simp [scrapeLoop, h]

/-- If the parser never succeeds, the retry loop terminates with some
error and no events. -/
theorem scrapeLoop_fail_result (parse : Nat → ParseResult) (b : Brewery)
    (mr t : Nat) (hfail : ∀ n evs, parse n ≠ .ok evs) :
    ∀ fuel attempt, attempt + fuel = mr → 1 ≤ fuel →
    ∃ err, (scrapeLoop parse b mr t attempt fuel).result = .ok ([], some err) := by
  intro fuel
  induction fuel with
  | zero => intro attempt hsum hf; omega
  | succ f ih =>
    intro attempt hsum hf
    cases hp : parse attempt with
    | ok evs => exact absurd hp (hfail attempt evs)
    | raiseValueError msg =>
      refine ⟨{ brewery := b
                error_type := "Parser Error"
                message := "Parsing failed: " ++ msg
                details := some msg }, ?_⟩
      simp [scrapeLoop, hp]
    | raiseTimeout =>
      cases hlast : (attempt == mr - 1) with
      | true =>
        refine ⟨{ brewery := b
                  error_type := "Network Timeout"
                  message := "Connection timeout after " ++ (toString t) ++ "s"
                  details := some ("Failed after " ++ (toString mr) ++ " attempts") }, ?_⟩
        simp [scrapeLoop, hp, hlast]
      | false =>
        have hne : attempt ≠ mr - 1 := by simpa using hlast
        obtain ⟨err, herr⟩ := ih (attempt + 1) (by omega) (by omega)
        exact ⟨err, by simp [scrapeLoop, hp, hlast]; exact herr⟩
    | raiseClientError msg =>
      cases hlast : (attempt == mr - 1) with
      | true =>
        refine ⟨{ brewery := b
                  error_type := "Network Error"
                  message := "Network error: " ++ msg
                  details := some ("Failed after " ++ (toString mr) ++ " attempts") }, ?_⟩
        simp [scrapeLoop, hp, hlast]
      | false =>
        have hne : attempt ≠ mr - 1 := by simpa using hlast
        obtain ⟨err, herr⟩ := ih (attempt + 1) (by omega) (by omega)
        exact ⟨err, by simp [scrapeLoop, hp, hlast]; exact herr⟩
    | raiseOther msg =>
      cases hlast : (attempt == mr - 1) with
      | true =>
        refine ⟨{ brewery := b
                  error_type := "Unexpected Error"
                  message := "Unexpected error: " ++ msg
                  details := some msg }, ?_⟩
        simp [scrapeLoop, hp, hlast]
      | false =>
        have hne : attempt ≠ mr - 1 := by simpa using hlast
        obtain ⟨err, herr⟩ := ih (attempt + 1) (by omega) (by omega)
        exact ⟨err, by simp [scrapeLoop, hp, hlast]; exact herr⟩

/-- One non-final timed-out iteration of the retry loop: the trace is
the remaining loop's trace with one more attempt and a backoff sleep of
2^attempt seconds prepended. -/
theorem scrapeLoop_timeout_step (parse : Nat → ParseResult) (b : Brewery)
    (mr t attempt fuel : Nat) (hto : parse attempt = .raiseTimeout)
    (hlast : (attempt == mr - 1) = false) :
    scrapeLoop parse b mr t attempt (fuel + 1) =
      { result := (scrapeLoop parse b mr t (attempt + 1) fuel).result
        attempts := (scrapeLoop parse b mr t (attempt + 1) fuel).attempts + 1
        sleeps := 2 ^ attempt :: (scrapeLoop parse b mr t (attempt + 1) fuel).sleeps } := by
  simp only [scrapeLoop, hto, hlast, Bool.false_eq_true, if_false]

/-- Full trace of the retry loop when every attempt times out: one
attempt per remaining loop iteration, exponential backoff sleeps, and a
terminal Network Timeout error. -/
theorem scrapeLoop_timeout_trace (parse : Nat → ParseResult) (b : Brewery)
    (mr t : Nat) (hp : ∀ n, parse n = .raiseTimeout) :
    ∀ fuel attempt, attempt + fuel = mr → 1 ≤ fuel →
    scrapeLoop parse b mr t attempt fuel =
      { result := .ok ([], some
          { brewery := b
            error_type := "Network Timeout"
            message := "Connection timeout after " ++ (toString t) ++ "s"
            details := some ("Failed after " ++ (toString mr) ++ " attempts") })
        attempts := fuel
        sleeps := (List.range' attempt (fuel - 1)).map (fun n => 2 ^ n) } := by
  intro fuel
  induction fuel with
  | zero => intro attempt hsum hf; omega
  | succ f ih =>
    intro attempt hsum hf
    cases f with
    | zero =>
      have hlast : (attempt == mr - 1) = true := by
        simp only [beq_iff_eq]; omega
      simp [scrapeLoop, hp, hlast]
    | succ g =>
      have hlast : (attempt == mr - 1) = false := by
        simp only [beq_eq_false_iff_ne, ne_eq]; omega
      have hrest := ih (attempt + 1) (by omega) (by omega)
      rw [scrapeLoop_timeout_step parse b mr t attempt (g + 1) (hp attempt) hlast, hrest]
      simp only [ScrapeTrace.mk.injEq, Nat.add_sub_cancel]
      refine ⟨trivial, trivial, ?_⟩
      rw [List.range'_succ, List.map_cons]

/-- Any error value carried out of the retry loop names the brewery the
loop was run for. -/
theorem scrapeLoop_error_brewery (parse : Nat → ParseResult) (b : Brewery)
    (mr t : Nat) :
    ∀ fuel attempt es err,
      (scrapeLoop parse b mr t attempt fuel).result = .ok (es, some err) →
      err.brewery = b := by
  intro fuel
  induction fuel with
  | zero =>
    intro attempt es err h
    simp [scrapeLoop] at h
  | succ f ih =>
    intro attempt es err h
    cases hp : parse attempt <;> simp only [scrapeLoop, hp] at h
    case ok evs => simp at h
    case raiseValueError msg =>
      simp at h
      rw [← h.2]
    case raiseTimeout =>
      cases hlast : (attempt == mr - 1) with
      | true =>
        simp [hlast] at h
        rw [← h.2]
      | false =>
        simp [hlast] at h
        exact ih _ _ _ h
    case raiseClientError msg =>
      cases hlast : (attempt == mr - 1) with
      | true =>
        simp [hlast] at h
        rw [← h.2]
      | false =>
        simp [hlast] at h
        exact ih _ _ _ h
    case raiseOther msg =>
      cases hlast : (attempt == mr - 1) with
      | true =>
        simp [hlast] at h
        rw [← h.2]
      | false =>
        simp [hlast] at h
        exact ih _ _ _ h

/-- When the brewery's key is registered, _scrape_brewery is exactly
the retry loop started at attempt 0. -/
theorem scrapeBrewery_of_registered (reg : Registry) (mr t : Nat)
    (b : Brewery) (p : ParserSpec) (h : reg b.key = some p) :
    scrapeBrewery reg mr t b = scrapeLoop (p b) b mr t 0 mr := by
  simp [scrapeBrewery, ParserRegistry.getParser, h]

/-- Any error value returned by _scrape_brewery names the brewery that
was scraped. -/
theorem scrapeBrewery_error_brewery (reg : Registry) (mr t : Nat)
    (b : Brewery) (es : List FoodTruckEvent) (err : ScrapingError)
    (h : (scrapeBrewery reg mr t b).result = .ok (es, some err)) :
    err.brewery = b := by
  unfold scrapeBrewery at h
  cases hg : ParserRegistry.getParser reg b.key with
  | error e =>
    rw [hg] at h
    cases e <;> simp at h
    case keyError msg => rw [← h.2]
  | ok p =>
    rw [hg] at h
    exact scrapeLoop_error_brewery (p b) b mr t mr 0 es err h

/-- Aggregation distributes over concatenation of per-source result
lists: events and errors are both concatenated in order. -/
theorem aggregateResults_append
    (l1 l2 : List (Brewery × Except PyExn (List FoodTruckEvent × Option ScrapingError))) :
    aggregateResults (l1 ++ l2) =
      ((aggregateResults l1).1 ++ (aggregateResults l2).1,
       (aggregateResults l1).2 ++ (aggregateResults l2).2) := by
  induction l1 with
  | nil => simp [aggregateResults]
  | cons x rest ih =>
    obtain ⟨bx, rx⟩ := x
    cases rx with
    | error e => simp [aggregateResults, ih]
    | ok v =>
      obtain ⟨es, oerr⟩ := v
      cases oerr <;> simp [aggregateResults, ih]

/-- Aggregating sources that all succeed yields the concatenation of
their event lists and no errors. -/
theorem aggregateResults_all_ok (bs : List Brewery)
    (res : Brewery → Except PyExn (List FoodTruckEvent × Option ScrapingError))
    (evOf : Brewery → List FoodTruckEvent)
    (h : ∀ b ∈ bs, res b = .ok (evOf b, none)) :
    aggregateResults (bs.map (fun b => (b, res b))) = ((bs.map evOf).flatten, []) := by
  induction bs with
  | nil => simp [aggregateResults]
  | cons b rest ih =>
    have hb := h b (by simp)
    have hrest := ih (fun x hx => h x (by simp [hx]))
    simp [aggregateResults, hb, hrest]

/-- Every aggregated error comes from some source's failing result:
either the gather slot held an exception value (and the error names that
brewery), or the per-source call returned that very error. -/
theorem mem_aggregateResults_errors
    (l : List (Brewery × Except PyExn (List FoodTruckEvent × Option ScrapingError)))
    (err : ScrapingError) (h : err ∈ (aggregateResults l).2) :
    ∃ pr ∈ l, (∃ e, pr.2 = Except.error e ∧ err.brewery = pr.1)
      ∨ ∃ es, pr.2 = .ok (es, some err) := by
  induction l with
  | nil => simp [aggregateResults] at h
  | cons x rest ih =>
    obtain ⟨bx, rx⟩ := x
    cases rx with
    | error e =>
      simp only [aggregateResults, List.mem_cons] at h
      cases h with
      | inl heq => exact ⟨(bx, .error e), by simp, Or.inl ⟨e, rfl, by rw [heq]⟩⟩
      | inr hmem =>
        obtain ⟨pr, hpr, hc⟩ := ih hmem
        exact ⟨pr, by simp [hpr], hc⟩
    | ok v =>
      obtain ⟨es, oerr⟩ := v
      cases oerr with
      | none =>
        simp only [aggregateResults] at h
        obtain ⟨pr, hpr, hc⟩ := ih h
        exact ⟨pr, by simp [hpr], hc⟩
      | some e0 =>
        simp only [aggregateResults, List.mem_cons] at h
        cases h with
        | inl heq =>
          exact ⟨(bx, .ok (es, some e0)), by simp, Or.inr ⟨es, by rw [heq]⟩⟩
        | inr hmem =>
          obtain ⟨pr, hpr, hc⟩ := ih hmem
          exact ⟨pr, by simp [hpr], hc⟩

/-- dict.fromkeys keeps a subsequence of the original keys. -/
theorem dedupAux_sublist (l : List String) : ∀ seen, (dedupAux seen l).Sublist l := by
  induction l with
  | nil => intro seen; simp [dedupAux]
  | cons x xs ih =>
    intro seen
    by_cases hx : x ∈ seen
    · simp only [dedupAux, if_pos hx]
      exact (ih seen).cons x
    · simp only [dedupAux, if_neg hx]
      exact (ih (x :: seen)).cons₂ x

/-- Membership in the deduplicated list: present in the input and not
already seen. -/
theorem mem_dedupAux (l : List String) :
    ∀ seen a, a ∈ dedupAux seen l ↔ a ∈ l ∧ a ∉ seen := by
  induction l with
  | nil => intro seen a; simp [dedupAux]
  | cons x xs ih =>
    intro seen a
    by_cases hx : x ∈ seen
    · simp only [dedupAux, if_pos hx, ih, List.mem_cons]
      constructor
      · rintro ⟨ha, hns⟩; exact ⟨Or.inr ha, hns⟩
      · rintro ⟨hor, hns⟩
        cases hor with
        | inl heq => exact absurd (heq ▸ hx) hns
        | inr ha => exact ⟨ha, hns⟩
    · simp only [dedupAux, if_neg hx, List.mem_cons, ih]
      constructor
      · rintro (rfl | ⟨ha, hns⟩)
        · exact ⟨Or.inl rfl, hx⟩
        · constructor
          · exact Or.inr ha
          · intro hseen; exact hns (by simp [hseen])
      · rintro ⟨hor, hns⟩
        cases hor with
        | inl heq => exact Or.inl heq
        | inr ha =>
          by_cases hax : a = x
          · exact Or.inl hax
          · exact Or.inr ⟨ha, by simp [hax, hns]⟩

/-- The deduplicated list has no duplicates. -/
theorem dedupAux_nodup (l : List String) : ∀ seen, (dedupAux seen l).Nodup := by
  induction l with
  | nil => intro seen; simp [dedupAux]
  | cons x xs ih =>
    intro seen
    by_cases hx : x ∈ seen
    · simp only [dedupAux, if_pos hx]
      exact ih seen
    · simp only [dedupAux, if_neg hx]
      refine List.Nodup.cons ?_ (ih (x :: seen))
      intro hmem
      exact ((mem_dedupAux xs (x :: seen) x).1 hmem).2 (by simp)

/-- The deduplicated list presents messages in order of first
occurrence in the input. -/
theorem dedupAux_pairwise_indexOf (l : List String) :
    ∀ seen, (dedupAux seen l).Pairwise
      (fun a b => l.indexOf a < l.indexOf b) := by
  induction l with
  | nil => intro seen; simp [dedupAux]
  | cons x xs ih =>
    intro seen
    by_cases hx : x ∈ seen
    · simp only [dedupAux, if_pos hx]
      refine (ih seen).imp_of_mem ?_
      intro a b ha hb hab
      have hax : x ≠ a := fun heq => ((mem_dedupAux xs seen a).1 ha).2 (heq ▸ hx)
      have hbx : x ≠ b := fun heq => ((mem_dedupAux xs seen b).1 hb).2 (heq ▸ hx)
      rw [List.indexOf_cons_ne _ hax, List.indexOf_cons_ne _ hbx]
      exact Nat.succ_lt_succ hab
    · simp only [dedupAux, if_neg hx]
      refine List.Pairwise.cons ?_ ?_
      · intro b hb
        have hbx : x ≠ b :=
          fun heq => ((mem_dedupAux xs (x :: seen) b).1 hb).2 (by simp [heq])
        rw [List.indexOf_cons_self, List.indexOf_cons_ne _ hbx]
        exact Nat.succ_pos _
      · refine (ih (x :: seen)).imp_of_mem ?_
        intro a b ha hb hab
        have hax : x ≠ a :=
          fun heq => ((mem_dedupAux xs (x :: seen) a).1 ha).2 (by simp [heq])
        have hbx : x ≠ b :=
          fun heq => ((mem_dedupAux xs (x :: seen) b).1 hb).2 (by simp [heq])
        rw [List.indexOf_cons_ne _ hax, List.indexOf_cons_ne _ hbx]
        exact Nat.succ_lt_succ hab

/-- Appending a fixed string on the left is injective. -/
theorem string_append_left_cancel {p a b : String} (h : p ++ a = p ++ b) : a = b := by
  apply String.ext
  have hd := congrArg String.data h
  simp only [String.data_append] at hd
  exact List.append_cancel_left hd

/-- A registered parser that succeeds on its first attempt makes
_scrape_brewery return its events with no error. -/
theorem scrapeBrewery_success (reg : Registry) (mr t : Nat) (b : Brewery)
    (p : ParserSpec) (evs : List FoodTruckEvent) (hreg : reg b.key = some p)
    (h0 : p b 0 = .ok evs) (hmr : 1 ≤ mr) :
    (scrapeBrewery reg mr t b).result = .ok (evs, none) := by
  rw [scrapeBrewery_of_registered reg mr t b p hreg,
      scrapeLoop_ok_first (p b) b mr t evs h0 mr hmr]

/-- C2: the claim says an unknown source key is recorded as a
ConfigurationError-kind ScrapingError without a parse attempt.  The
code instead raises ValueError from get_parser, which the KeyError
handler in _scrape_brewery does not catch: no parse attempt and no
retry happen, but scrape_all records the failure as an "Unexpected
Error" (via the gather exception slot), not a Configuration Error.
This theorem evaluates the code at the failing input. -/
theorem unknown_key_is_misclassified :
    wRegEmpty wBadBrewery.key = none
    ∧ ParserRegistry.getParser wRegEmpty wBadBrewery.key
        = .error (.valueError "No parser found for key: no-such-key")
    ∧ (scrapeBrewery wRegEmpty 3 60 wBadBrewery).attempts = 0
    ∧ (scrapeBrewery wRegEmpty 3 60 wBadBrewery).sleeps = []
    ∧ (scrapeBrewery wRegEmpty 3 60 wBadBrewery).result
        = .error (.valueError "No parser found for key: no-such-key")
    ∧ (ScraperCoordinator.scrape_all {} wRegEmpty 0 [wBadBrewery]).2.errors.map
        ScrapingError.error_type = ["Unexpected Error"] :=
  ⟨rfl, rfl, rfl, rfl, rfl, rfl⟩

/-- C3: the claim says scrape_all and scrape_one always return normally
for per-source failures.  scrape_all does (the gather slot captures the
unknown-key ValueError as an "Unexpected Error" ScrapingError and
returns no events), but scrape_one lets that ValueError propagate to
its caller.  This theorem evaluates the code at the failing input. -/
theorem scrape_one_propagates_unknown_key :
    ScraperCoordinator.scrape_one {} wRegEmpty 0 wBadBrewery
        = .error (.valueError "No parser found for key: no-such-key")
    ∧ (ScraperCoordinator.scrape_all {} wRegEmpty 0 [wBadBrewery]).1 = []
    ∧ (ScraperCoordinator.scrape_all {} wRegEmpty 0 [wBadBrewery]).2.errors.length = 1 :=
  ⟨rfl, rfl, rfl⟩

/-- C4: a source whose parser times out on every attempt is attempted
exactly maxRetries times, with backoff sleeps of 2^0, 2^1, ... seconds
between consecutive attempts (1s after the first attempt), and yields
exactly one Network Timeout ScrapingError and no events. -/
theorem timeout_retry_exhaustion (reg : Registry) (b : Brewery) (p : ParserSpec)
    (mr t : Nat) (hreg : reg b.key = some p) (hto : ∀ n, p b n = .raiseTimeout)
    (hmr : 1 ≤ mr) :
    scrapeBrewery reg mr t b =
      { result := .ok ([], some
          { brewery := b
            error_type := "Network Timeout"
            message := "Connection timeout after " ++ (toString t) ++ "s"
            details := some ("Failed after " ++ (toString mr) ++ " attempts") })
        attempts := mr
        sleeps := (List.range (mr - 1)).map (fun n => 2 ^ n) } := by
  rw [scrapeBrewery_of_registered reg mr t b p hreg,
      scrapeLoop_timeout_trace (p b) b mr t hto mr 0 (by omega) hmr,
      List.range_eq_range']

/-- Witness for timeout_retry_exhaustion at the default configuration
(maxRetries = 3, timeout = 60s): 3 attempts, sleeps of 1s and 2s. -/
theorem timeout_retry_exhaustion_witness :
    scrapeBrewery wRegTimeout 3 60 wBrewery =
      { result := .ok ([], some
          { brewery := wBrewery
            error_type := "Network Timeout"
            message := "Connection timeout after " ++ (toString 60) ++ "s"
            details := some ("Failed after " ++ (toString 3) ++ " attempts") })
        attempts := 3
        sleeps := (List.range (3 - 1)).map (fun n => 2 ^ n) } :=
  timeout_retry_exhaustion wRegTimeout wBrewery (fun _ _ => .raiseTimeout) 3 60 rfl
    (fun _ => rfl) (by decide)

/-- C5: a source whose parser raises a content-validation failure
(ValueError) on the first attempt is attempted exactly once — no
retries, no backoff sleeps — and yields exactly one Parser Error
ScrapingError and no events. -/
theorem parse_error_fails_fast (reg : Registry) (b : Brewery) (p : ParserSpec)
    (mr t : Nat) (msg : String) (hreg : reg b.key = some p)
    (h0 : p b 0 = .raiseValueError msg) (hmr : 1 ≤ mr) :
    scrapeBrewery reg mr t b =
      { result := .ok ([], some
          { brewery := b
            error_type := "Parser Error"
            message := "Parsing failed: " ++ msg
            details := some msg })
        attempts := 1
        sleeps := [] } := by
  rw [scrapeBrewery_of_registered reg mr t b p hreg,
      scrapeLoop_valueError_first (p b) b mr t msg h0 mr hmr]

/-- Witness for parse_error_fails_fast at the default configuration. -/
theorem parse_error_fails_fast_witness :
    scrapeBrewery wRegValueError 3 60 wBrewery =
      { result := .ok ([], some
          { brewery := wBrewery
            error_type := "Parser Error"
            message := "Parsing failed: " ++ "bad page"
            details := some "bad page" })
        attempts := 1
        sleeps := [] } :=
  parse_error_fails_fast wRegValueError wBrewery (fun _ _ => .raiseValueError "bad page")
    3 60 "bad page" rfl rfl (by decide)

/-- C10: filtering and sorting fabricates and mutates nothing — the
output of _filter_and_sort_events is a permutation of a sublist of its
input, every output event is an input event with unchanged fields, and
no event occurs more often in the output than in the input. -/
theorem filter_sort_is_permutation_of_sublist (utc : Int)
    (events : List FoodTruckEvent) :
    ∃ sub : List FoodTruckEvent, sub.Sublist events
      ∧ (ScraperCoordinator.filter_and_sort_events utc events).Perm sub
      ∧ (∀ e ∈ ScraperCoordinator.filter_and_sort_events utc events, e ∈ events)
      ∧ ∀ e : FoodTruckEvent,
          (ScraperCoordinator.filter_and_sort_events utc events).count e
            ≤ events.count e := by
  refine ⟨events.filter (inWindow (nowInFixedZone utc seattleOffsetMinutes)),
    List.filter_sublist events, List.perm_insertionSort eventLe _, ?_, ?_⟩
  · intro e he
    simp only [ScraperCoordinator.filter_and_sort_events, List.mem_insertionSort,
      List.mem_filter] at he
    exact he.1
  · intro e
    show (List.insertionSort eventLe
      (events.filter (inWindow (nowInFixedZone utc seattleOffsetMinutes)))).count e
        ≤ events.count e
    rw [(List.perm_insertionSort eventLe _).count_eq]
    exact (List.filter_sublist events).count_le e

/-- C6: the filter keeps an event iff its calendar day lies in
[now, now + 7 days] inclusive, where now is the wall clock in the fixed
UTC-8 reference zone (not the process's local zone: the definition of
filter_and_sort_events uses the constant seattleOffsetMinutes and takes
no local-zone input).  Concretely, with the Seattle clock reading
2025-11-02, an event on 2025-11-04 is kept, one on 2025-11-09 (exactly
now + 7) is kept, and one on 2025-11-10 is dropped. -/
theorem window_filter_seven_days_inclusive :
    (∀ (utc : Int) (events : List FoodTruckEvent) (e : FoodTruckEvent),
      e ∈ ScraperCoordinator.filter_and_sort_events utc events ↔
        e ∈ events
        ∧ (nowInFixedZone utc seattleOffsetMinutes).day ≤ e.date.day
        ∧ e.date.day ≤ (nowInFixedZone utc seattleOffsetMinutes).day + 7)
    ∧ (nowInFixedZone wUtcNov2 seattleOffsetMinutes).day = daysFromCivil 2025 11 2
    ∧ wEventNov4 ∈ ScraperCoordinator.filter_and_sort_events wUtcNov2
        [wEventNov4, wEventNov9, wEventNov10]
    ∧ wEventNov9 ∈ ScraperCoordinator.filter_and_sort_events wUtcNov2
        [wEventNov4, wEventNov9, wEventNov10]
    ∧ wEventNov10 ∉ ScraperCoordinator.filter_and_sort_events wUtcNov2
        [wEventNov4, wEventNov9, wEventNov10] := by
  refine ⟨?_, by decide, by decide, by decide, by decide⟩
  intro utc events e
  simp only [ScraperCoordinator.filter_and_sort_events, List.mem_insertionSort,
    List.mem_filter, inWindow, PyDateTime.plusDays, Bool.and_eq_true,
    decide_eq_true_eq, Nat.cast_ofNat, and_assoc]

/-- C1: per-source failure isolation — with one always-failing source
anywhere among otherwise-succeeding sources, scrape_all returns the
filtered and sorted concatenation of the succeeding sources' events and
records exactly one ScrapingError, for every number of sources. -/
theorem scrape_all_isolates_single_failure
    (c : ScraperCoordinator) (reg : Registry) (utc : Int)
    (pre post : List Brewery) (bad : Brewery)
    (evOf : Brewery → List FoodTruckEvent)
    (hok : ∀ b ∈ pre ++ post, ∃ p, reg b.key = some p ∧ p b 0 = .ok (evOf b))
    (hbad : ∃ p, reg bad.key = some p ∧ ∀ n evs, p bad n ≠ .ok evs)
    (hmr : 1 ≤ c.max_retries) :
    ∃ err,
      (c.scrape_all reg utc (pre ++ bad :: post)).1 =
        ScraperCoordinator.filter_and_sort_events utc (((pre ++ post).map evOf).flatten)
      ∧ (c.scrape_all reg utc (pre ++ bad :: post)).2.errors = [err] := by
  obtain ⟨p, hp, hfail⟩ := hbad
  obtain ⟨err, herr⟩ := scrapeLoop_fail_result (p bad) bad c.max_retries c.timeout hfail
    c.max_retries 0 (by omega) hmr
  have hbadres : (scrapeBrewery reg c.max_retries c.timeout bad).result
      = .ok ([], some err) := by
    rw [scrapeBrewery_of_registered reg c.max_retries c.timeout bad p hp]
    exact herr
  have hokres : ∀ x ∈ pre ++ post,
      (scrapeBrewery reg c.max_retries c.timeout x).result = .ok (evOf x, none) := by
    intro x hx
    obtain ⟨q, hq, hq0⟩ := hok x hx
    exact scrapeBrewery_success reg c.max_retries c.timeout x q (evOf x) hq hq0 hmr
  have hpre : aggregateResults (pre.map
      (fun b => (b, (scrapeBrewery reg c.max_retries c.timeout b).result)))
      = ((pre.map evOf).flatten, []) :=
    aggregateResults_all_ok pre _ evOf (fun x hx => hokres x (by simp [hx]))
  have hpost : aggregateResults (post.map
      (fun b => (b, (scrapeBrewery reg c.max_retries c.timeout b).result)))
      = ((post.map evOf).flatten, []) :=
    aggregateResults_all_ok post _ evOf (fun x hx => hokres x (by simp [hx]))
  have hkey : aggregateResults ((pre ++ bad :: post).map
      (fun b => (b, (scrapeBrewery reg c.max_retries c.timeout b).result)))
      = (((pre ++ post).map evOf).flatten, [err]) := by
    rw [List.map_append, List.map_cons, aggregateResults_append, hpre]
    have hconsstep : aggregateResults
        ((bad, (scrapeBrewery reg c.max_retries c.timeout bad).result)
          :: post.map (fun b => (b, (scrapeBrewery reg c.max_retries c.timeout b).result)))
        = ((post.map evOf).flatten, [err]) := by
      rw [show (bad, (scrapeBrewery reg c.max_retries c.timeout bad).result)
          = (bad, Except.ok ([], some err)) from by rw [hbadres]]
      simp [aggregateResults, hpost]
    rw [hconsstep]
    simp [List.map_append, List.flatten_append]
  refine ⟨err, ?_, ?_⟩
  · show ScraperCoordinator.filter_and_sort_events utc
      (aggregateResults ((pre ++ bad :: post).map
        (fun b => (b, (scrapeBrewery reg c.max_retries c.timeout b).result)))).1 = _
    rw [hkey]
  · show (aggregateResults ((pre ++ bad :: post).map
      (fun b => (b, (scrapeBrewery reg c.max_retries c.timeout b).result)))).2 = [err]
    rw [hkey]

/-- Witness for scrape_all_isolates_single_failure: two succeeding
sources around one timing-out source, default configuration. -/
theorem scrape_all_isolates_single_failure_witness :
    ∃ err,
      (ScraperCoordinator.scrape_all {} wRegMixed 0 ([wBrewery] ++ wFailBrewery :: [wBreweryB])).1 =
        ScraperCoordinator.filter_and_sort_events 0 ((([wBrewery] ++ [wBreweryB]).map wEvOf).flatten)
      ∧ (ScraperCoordinator.scrape_all {} wRegMixed 0 ([wBrewery] ++ wFailBrewery :: [wBreweryB])).2.errors = [err] :=
  scrape_all_isolates_single_failure {} wRegMixed 0 [wBrewery] [wBreweryB] wFailBrewery
    wEvOf
    (by
      intro b hb
      simp only [List.cons_append, List.nil_append, List.mem_cons, List.not_mem_nil,
        or_false] at hb
      cases hb with
      | inl hb => exact ⟨fun _ _ => .ok [wEventNov4], by rw [hb]; rfl, by rw [hb]; rfl⟩
      | inr hb => exact ⟨fun _ _ => .ok [wEventNov9], by rw [hb]; rfl, by rw [hb]; rfl⟩)
    ⟨fun _ _ => .raiseTimeout, rfl, fun n evs h => ParseResult.noConfusion h⟩
    (by decide)

/-- C7 counterexample: an event whose start time is exactly midnight of
day D (equal to its date value) ties with a timeless event of the same
date under the sort key, and the stable sort keeps insertion order — so
the timeless event does NOT come before every timed event on the same
day: here the midnight-timed event stays first. -/
theorem timeless_event_not_before_midnight_timed :
    wTimelessNov4.start_time = none
    ∧ wMidnightNov4.start_time = some (mkDate 2025 11 4)
    ∧ wTimelessNov4.date = wMidnightNov4.date
    ∧ ScraperCoordinator.filter_and_sort_events wUtcNov2 [wMidnightNov4, wTimelessNov4]
        = [wMidnightNov4, wTimelessNov4] := by
  exact ⟨rfl, rfl, rfl, by decide⟩

/-- C7 (amended): the output is sorted ascending by the key
(date, startTime-or-date), and an event without a start time takes its
date value (midnight, as parsers construct dates) as its key's second
component, hence occurs before every timed event with the same date
value whose start time is strictly after that date value; a timed event
whose start time equals the date value ties and keeps insertion
order. -/
theorem sort_uses_midnight_equivalent_key
    (utc : Int) (events : List FoodTruckEvent)
    (e f : FoodTruckEvent) (s : PyDateTime)
    (he : e.start_time = none) (hf : f.start_time = some s)
    (hdate : e.date = f.date) (hs : PyDateTime.ltb f.date s = true)
    (i j : Nat)
    (hi : i < (ScraperCoordinator.filter_and_sort_events utc events).length)
    (hj : j < (ScraperCoordinator.filter_and_sort_events utc events).length)
    (hie : (ScraperCoordinator.filter_and_sort_events utc events).get ⟨i, hi⟩ = e)
    (hjf : (ScraperCoordinator.filter_and_sort_events utc events).get ⟨j, hj⟩ = f) :
    List.Sorted eventLe (ScraperCoordinator.filter_and_sort_events utc events)
    ∧ i < j := by
  have hsorted : List.Sorted eventLe (ScraperCoordinator.filter_and_sort_events utc events) :=
    List.sorted_insertionSort eventLe _
  refine ⟨hsorted, ?_⟩
  rcases Nat.lt_trichotomy i j with hlt | heq | hgt
  · exact hlt
  · exfalso
    have hef : e = f := by
      rw [← hie, ← hjf]
      congr 1
      exact Fin.ext heq
    rw [hef, hf] at he
    exact Option.noConfusion he
  · exfalso
    have hrel : eventLe ((ScraperCoordinator.filter_and_sort_events utc events).get ⟨j, hj⟩)
        ((ScraperCoordinator.filter_and_sort_events utc events).get ⟨i, hi⟩) :=
      hsorted.rel_get_of_lt (Fin.mk_lt_mk.2 hgt)
    rw [hie, hjf] at hrel
    simp only [eventLe, eventLeb, dtPairLeb, eventKey, he, hf, hdate,
      Option.getD_some, Option.getD_none] at hrel
    simp only [PyDateTime.ltb, PyDateTime.leb, Bool.or_eq_true, Bool.and_eq_true,
      decide_eq_true_eq, PyDateTime.ext_iff] at hrel hs
    omega

set_option maxRecDepth 2000 in
/-- Witness for sort_uses_midnight_equivalent_key, realising the
claim's concrete instance: input [(date=D, time=None),
(date=D, time=09:00)] yields the timeless event at index 0 and the
09:00 event at index 1. -/
theorem sort_uses_midnight_equivalent_key_witness :
    List.Sorted eventLe
      (ScraperCoordinator.filter_and_sort_events wUtcNov2 [wTimelessNov4, wTimed9Nov4])
    ∧ 0 < 1 :=
  sort_uses_midnight_equivalent_key wUtcNov2 [wTimelessNov4, wTimed9Nov4]
    wTimelessNov4 wTimed9Nov4 (mkTime 2025 11 4 9 0) rfl rfl rfl (by decide)
    0 1 (by decide) (by decide) rfl rfl

/-- C8: scrape_all resets the coordinator's error list on entry, so
after two sequential runs get_errors and has_errors reflect only the
second run, and no error of a source that succeeds in the second run
ever appears in the second run's get_errors. -/
theorem scrape_all_resets_errors
    (c : ScraperCoordinator) (reg1 reg2 : Registry) (utc1 utc2 : Int)
    (bs1 bs2 : List Brewery) (b : Brewery) (p : ParserSpec)
    (evs : List FoodTruckEvent)
    (hsucc : reg2 b.key = some p) (hp0 : p b 0 = .ok evs) (hmr : 1 ≤ c.max_retries) :
    (((c.scrape_all reg1 utc1 bs1).2.scrape_all reg2 utc2 bs2).2.get_errors
        = (c.scrape_all reg2 utc2 bs2).2.get_errors)
    ∧ (((c.scrape_all reg1 utc1 bs1).2.scrape_all reg2 utc2 bs2).2.has_errors
        = (c.scrape_all reg2 utc2 bs2).2.has_errors)
    ∧ ∀ err ∈ ((c.scrape_all reg1 utc1 bs1).2.scrape_all reg2 utc2 bs2).2.get_errors,
        err.brewery ≠ b := by
  refine ⟨rfl, rfl, ?_⟩
  intro err hmem
  have hmem2 : err ∈ (aggregateResults (bs2.map
      (fun x => (x, (scrapeBrewery reg2 c.max_retries c.timeout x).result)))).2 := hmem
  obtain ⟨pr, hpr, hc⟩ := mem_aggregateResults_errors _ err hmem2
  obtain ⟨x, hxmem, rfl⟩ := List.mem_map.1 hpr
  intro heqb
  have hbres : (scrapeBrewery reg2 c.max_retries c.timeout b).result = .ok (evs, none) :=
    scrapeBrewery_success reg2 c.max_retries c.timeout b p evs hsucc hp0 hmr
  cases hc with
  | inl hcase =>
    obtain ⟨exn, hx2, hbrew⟩ := hcase
    have hxb : x = b := by
      have hbrew2 : err.brewery = x := hbrew
      rw [← hbrew2]
      exact heqb
    rw [hxb] at hx2
    simp only [hbres] at hx2
    exact Except.noConfusion hx2
  | inr hcase =>
    obtain ⟨es, hx2⟩ := hcase
    have hbrew : err.brewery = x :=
      scrapeBrewery_error_brewery reg2 c.max_retries c.timeout x es err hx2
    have hxb : x = b := by rw [← hbrew]; exact heqb
    rw [hxb] at hx2
    rw [hbres] at hx2
    simp at hx2

/-- Witness for scrape_all_resets_errors: the source fails (timeout) in
the first run and succeeds in the second; the second run's error list
is that of a fresh run and contains nothing for that source. -/
theorem scrape_all_resets_errors_witness :
    ((ScraperCoordinator.scrape_all
        (ScraperCoordinator.scrape_all {} wRegTimeout 0 [wBrewery]).2
        wRegSuccess 0 [wBrewery]).2.get_errors
      = (ScraperCoordinator.scrape_all {} wRegSuccess 0 [wBrewery]).2.get_errors)
    ∧ ((ScraperCoordinator.scrape_all
        (ScraperCoordinator.scrape_all {} wRegTimeout 0 [wBrewery]).2
        wRegSuccess 0 [wBrewery]).2.has_errors
      = (ScraperCoordinator.scrape_all {} wRegSuccess 0 [wBrewery]).2.has_errors)
    ∧ ∀ err ∈ (ScraperCoordinator.scrape_all
        (ScraperCoordinator.scrape_all {} wRegTimeout 0 [wBrewery]).2
        wRegSuccess 0 [wBrewery]).2.get_errors,
        err.brewery ≠ wBrewery :=
  scrape_all_resets_errors {} wRegTimeout wRegSuccess 0 0 [wBrewery] [wBrewery]
    wBrewery (fun _ _ => .ok [wEventNov4]) [wEventNov4] rfl rfl (by decide)

/-- C9: the user-facing error summary holds one bullet line per
distinct rendered message, with no duplicate lines, as a subsequence of
the rendered-message sequence ordered by first occurrence; concretely,
two failed sources with the same display name produce two ScrapingError
values internally but one summary line, while two failed sources with
different names produce two distinct lines. -/
theorem error_summary_deduplicates (errors : List ScrapingError) :
    ((errorSummaryLines errors).Nodup
    ∧ errorSummaryLines errors
        = (dedupKeepFirst (errors.map ScrapingError.to_user_message)).map
            (fun m => "  • " ++ m)
    ∧ (dedupKeepFirst (errors.map ScrapingError.to_user_message)).Sublist
        (errors.map ScrapingError.to_user_message)
    ∧ (∀ m, m ∈ dedupKeepFirst (errors.map ScrapingError.to_user_message)
        ↔ m ∈ errors.map ScrapingError.to_user_message)
    ∧ (dedupKeepFirst (errors.map ScrapingError.to_user_message)).Pairwise
        (fun a b => (errors.map ScrapingError.to_user_message).indexOf a
          < (errors.map ScrapingError.to_user_message).indexOf b))
    ∧ ((ScraperCoordinator.scrape_all {} wRegFailTwo 0 [wBrewSameA, wBrewSameB]).2.errors.length = 2
    ∧ errorSummaryLines
        (ScraperCoordinator.scrape_all {} wRegFailTwo 0 [wBrewSameA, wBrewSameB]).2.errors
        = ["  • Failed to fetch information for brewery: Same Name"]
    ∧ errorSummaryLines
        (ScraperCoordinator.scrape_all {} wRegFailTwo 0 [wBrewSameA, wFailBrewery]).2.errors
        = ["  • Failed to fetch information for brewery: Same Name",
           "  • Failed to fetch information for brewery: Wheelie Pop"]) := by
  refine ⟨⟨?_, rfl, dedupAux_sublist _ [], ?_, dedupAux_pairwise_indexOf _ []⟩,
    by decide, by decide, by decide⟩
  · refine List.Nodup.map ?_ (dedupAux_nodup _ [])
    intro a b hab
    exact string_append_left_cancel hab
  · intro m
    rw [dedupKeepFirst, mem_dedupAux]
    simp
